import Mathlib

/-!
# Verification of the Playwright Unsplash downloader core

A shallow embedding of the download coordinator of the
`playwright-unsplash-downloader` repository: the size selector
(`DownloadService.validateAndSelectSize`), configuration validation
(`Config.validateConfig`), the per-entry download state machine with retries
(`DownloadService.downloadImage`), the sequential and concurrent coordinator
loops, the result aggregator (`DownloadService.getDownloadSummary`), and the
filesystem collaborator (`FileSystemService`).

Side-effecting collaborators (filesystem probes, browser automation, the
Unsplash REST API) are modelled by an explicit environment of pure functions,
and the observable actions of a run (existence checks, page navigations,
download clicks, file writes, API fetches, sleeps) are reified as an event
trace so that temporal/frame claims ("no browser call for skipped entries",
"delay between entries", "no network in dry-run") become statements about
the trace.
-/

namespace Unsplash

/-! ## JavaScript truthiness helpers

The source is TypeScript; several guards test JS truthiness of numbers
(`0`, `null`, `undefined` are falsy), of optional numbers, and of strings
(`""` is falsy). -/

deriving instance DecidableEq for Except

/-- Truthiness of an optional JS number (`undefined`/`null`/`0` are falsy). -/
def jsTruthyNat : Option Nat → Bool
  | none => false
  | some n => n != 0

/-- Truthiness of a JS number (`0` is falsy). -/
def intTruthy (n : Int) : Bool := n != 0

/-- Truthiness of a JS string (`""` is falsy). -/
def strTruthy (s : String) : Bool := s != ""

/-! ## Size selector (`DownloadService.validateAndSelectSize`) -/

/-- The four ordered size tiers (`src/unnamed/part_008`, `sizeOrder`). -/
inductive ImageSize where
  | original
  | large
  | medium
  | small
deriving Repr, DecidableEq

/-- Model of `Config.getSizeMap` (`src/unnamed/part_006` lines 324-331): width ceiling
per tier; `original` has no width parameter (`null`). -/
def sizeMap : ImageSize → Option Nat
  | .small => some 640
  | .medium => some 1920
  | .large => some 2400
  | .original => none

/-- The fallback chain `sizeOrder = ["original", "large", "medium", "small"]`. -/
def sizeOrder : List ImageSize := [.original, .large, .medium, .small]

/-- Model of `sizeOrder.indexOf(preferredSize)`: parse the preferred-size string; `none`
models the `-1` (unknown size) case. -/
def ImageSize.ofString? : String → Option ImageSize
  | "original" => some .original
  | "large" => some .large
  | "medium" => some .medium
  | "small" => some .small
  | _ => none

/-- Index of a tier in `sizeOrder`. -/
def ImageSize.index : ImageSize → Nat
  | .original => 0
  | .large => 1
  | .medium => 2
  | .small => 3

/-- Manifest entry metadata (`ImageData` in `src/unnamed/part_008`); numeric
fields are optional JS numbers. -/
structure ImageData where
  width : Option Nat := none
  height : Option Nat := none
  image_author : Option String := none
  image_author_url : Option String := none
  description : Option String := none
deriving Repr, DecidableEq

/-- Result of the size selector: selected tier and width constraint
(`null` = unconstrained). -/
structure SizeSelection where
  selectedSize : ImageSize
  selectedWidth : Option Nat
deriving Repr, DecidableEq

/-- The `for (let i = preferredIndex + 1; ...)` loop of
`validateAndSelectSize`: first tier in the remaining chain whose ceiling is
absent or `≤ originalWidth`; falls back to `original` when exhausted. -/
def fallbackSearch (originalWidth : Nat) : List ImageSize → SizeSelection
  | [] => ⟨.original, none⟩
  | s :: rest =>
    match sizeMap s with
    | none => ⟨s, none⟩
    | some aw =>
      if aw ≤ originalWidth then ⟨s, some aw⟩ else fallbackSearch originalWidth rest

/-- Model of `DownloadService.validateAndSelectSize` (`src/unnamed/part_008` lines
449-555). The `photoId` parameter only feeds log output and is dropped.
The `.error` branch mirrors `throw new Error("Image width is undefined")`,
reachable in the source only if the truthiness guard were violated. -/
def validateAndSelectSize (imageData : ImageData) (preferredSize : String) :
    Except String SizeSelection :=
  match ImageSize.ofString? preferredSize with
  | none => .ok ⟨.original, none⟩
  | some pref =>
    if !(jsTruthyNat imageData.width && jsTruthyNat imageData.height) then
      .ok ⟨pref, sizeMap pref⟩
    else
      match imageData.width with
      | none => .error "Image width is undefined"
      | some originalWidth =>
        match sizeMap pref with
        | none => .ok ⟨pref, none⟩
        | some requestedWidth =>
          if requestedWidth ≥ originalWidth then
            if requestedWidth > originalWidth then .ok ⟨.original, none⟩
            else .ok ⟨pref, some requestedWidth⟩
          else if requestedWidth ≤ originalWidth then
            .ok ⟨pref, some requestedWidth⟩
          else
            .ok (fallbackSearch originalWidth (sizeOrder.drop (pref.index + 1)))

/-- The spec's description of the fallback ("walk the tier list forward from
just after the preferred tier, return the first tier whose ceiling is
unconstrained or ≤ originalWidth"), written from the spec's words for
comparison with the source function. -/
def specSelectSize (originalWidth : Nat) (pref : ImageSize) : SizeSelection :=
  match sizeMap pref with
  | none => ⟨pref, none⟩
  | some c =>
    if c ≤ originalWidth then ⟨pref, some c⟩
    else fallbackSearch originalWidth (sizeOrder.drop (pref.index + 1))

/-- C1 counterexample: at the claim's own example (preferred tier `large`,
ceiling 2400, original width 1000, height known), `validateAndSelectSize`
returns tier `original` with no width constraint — not tier `small` with
width 640, which is what the spec's forward walk (`specSelectSize`) yields.
The walk in the source is unreachable: the `requestedWidth > originalWidth`
case returns `original` before the loop. -/
theorem C1_counterexample :
    validateAndSelectSize ⟨some 1000, some 667, none, none, none⟩ "large" =
        .ok ⟨.original, none⟩ ∧
    specSelectSize 1000 .large = ⟨.small, some 640⟩ ∧
    SizeSelection.mk .original none ≠ ⟨.small, some 640⟩ := by
  decide

/-- C1 (amended): for an entry with known positive width and height, whenever
the preferred tier's configured ceiling exceeds the original width,
`validateAndSelectSize` returns tier `original` with no width constraint
(the fallback walk toward smaller tiers is dead code). -/
theorem C1_amended (d : ImageData) (ps : String) (pref : ImageSize) (w h c : Nat)
    (hps : ImageSize.ofString? ps = some pref)
    (hw : d.width = some w) (hh : d.height = some h)
    (hw0 : 0 < w) (hh0 : 0 < h)
    (hc : sizeMap pref = some c) (hgt : w < c) :
    validateAndSelectSize d ps = .ok ⟨.original, none⟩ := by
  have hguard : (jsTruthyNat d.width && jsTruthyNat d.height) = true := by
    simp [jsTruthyNat, hw, hh, hw0.ne', hh0.ne']
  simp [validateAndSelectSize, hps, jsTruthyNat, hw, hh, hw0.ne', hh0.ne', hc,
    Nat.le_of_lt hgt, hgt]

/-- Witness for `C1_amended` at the claim's example input. -/
theorem C1_amended_witness :
    validateAndSelectSize ⟨some 1000, some 667, none, none, none⟩ "large" =
      .ok ⟨.original, none⟩ :=
  C1_amended ⟨some 1000, some 667, none, none, none⟩ "large" .large 1000 667 2400
    rfl rfl rfl (by decide) (by decide) rfl (by decide)

/-- C9 counterexample: metadata with a known positive width (1000) but no
height is "image metadata with originalWidth > 0", yet the selector returns
tier `large` with ceiling 2400 > 1000 (the dimension guard requires both
width and height to be truthy, otherwise the preferred tier is used
unvalidated). -/
theorem C9_counterexample :
    validateAndSelectSize ⟨some 1000, none, none, none, none⟩ "large" =
        .ok ⟨.large, some 2400⟩ ∧
    sizeMap .large = some 2400 ∧ 1000 < 2400 ∧ ImageSize.large ≠ .original := by
  decide

/-- C9 (amended): for all metadata whose width **and height** are both known
and positive, and every preferred-size string, the selector yields a
selection whose tier is `original` or whose configured ceiling does not
exceed the original width. -/
theorem C9_amended (d : ImageData) (ps : String) (w h : Nat)
    (hw : d.width = some w) (hh : d.height = some h)
    (hw0 : 0 < w) (hh0 : 0 < h) :
    ∃ sel, validateAndSelectSize d ps = .ok sel ∧
      (sel.selectedSize = .original ∨ (sizeMap sel.selectedSize).getD 0 ≤ w) := by
  have hguard : (jsTruthyNat d.width && jsTruthyNat d.height) = true := by
    simp [jsTruthyNat, hw, hh, hw0.ne', hh0.ne']
  cases hps : ImageSize.ofString? ps with
  | none =>
    exact ⟨⟨.original, none⟩, by simp [validateAndSelectSize, hps], Or.inl rfl⟩
  | some pref =>
    cases hc : sizeMap pref with
    | none =>
      have hpref : pref = .original := by cases pref <;> simp_all [sizeMap]
      exact ⟨⟨pref, none⟩, by simp [validateAndSelectSize, hps, jsTruthyNat, hw, hh, hw0.ne', hh0.ne', hc],
        Or.inl hpref⟩
    | some c =>
      by_cases hge : c ≥ w
      · by_cases hgt : c > w
        · exact ⟨⟨.original, none⟩,
            by simp [validateAndSelectSize, hps, jsTruthyNat, hw, hh, hw0.ne', hh0.ne', hc, hge, hgt], Or.inl rfl⟩
        · refine ⟨⟨pref, some c⟩,
            by simp [validateAndSelectSize, hps, jsTruthyNat, hw, hh, hw0.ne', hh0.ne', hc, hge, hgt], Or.inr ?_⟩
          simp [hc]
          omega
      · refine ⟨⟨pref, some c⟩,
          by simp [validateAndSelectSize, hps, jsTruthyNat, hw, hh, hw0.ne', hh0.ne', hc, hge,
            Nat.le_of_lt (Nat.lt_of_not_le hge)], Or.inr ?_⟩
        simp [hc]
        omega

/-- Witness for `C9_amended` at width 3000, height 2000, preferred `large`. -/
theorem C9_amended_witness :
    ∃ sel, validateAndSelectSize ⟨some 3000, some 2000, none, none, none⟩ "large" =
        .ok sel ∧
      (sel.selectedSize = .original ∨ (sizeMap sel.selectedSize).getD 0 ≤ 3000) :=
  C9_amended ⟨some 3000, some 2000, none, none, none⟩ "large" 3000 2000
    rfl rfl (by decide) (by decide)

end Unsplash

namespace Unsplash

/-! ## Configuration (`Config` in `src/unnamed/part_006`)

`Config`'s constructor merges user options over defaults and validates the
merged object. Smart path resolution (`PathResolver`) probes the filesystem;
its two resulting default paths are taken as parameters here. -/

/-- User-supplied `ConfigOptions`: every field optional (absent = not given).
The `typeof`-isms of the source are vacuous in this typed model. -/
structure ConfigOptions where
  headless : Option Bool := none
  debug : Option Bool := none
  downloadDir : Option String := none
  manifestPath : Option String := none
  timeout : Option Int := none
  retries : Option Int := none
  preferredSize : Option String := none
  dryRun : Option Bool := none
  concurrency : Option Int := none
  enableConcurrency : Option Bool := none
  limit : Option Int := none
deriving Repr, DecidableEq

/-- The merged configuration (all defaults applied); numbers keep their JS
`number` type as `Int`. -/
structure Config where
  headless : Bool
  debug : Bool
  downloadDir : String
  manifestPath : String
  timeout : Int
  retries : Int
  preferredSize : String
  dryRun : Bool
  concurrency : Int
  enableConcurrency : Bool
  limit : Option Int
deriving Repr, DecidableEq

/-- The `{...defaults, ...options}` merge of `validateAndSetDefaults`
(`src/unnamed/part_006` lines 74-100); `smartPaths` stands for the
`PathResolver` results (`downloadDir`, `manifestPath`). -/
def mergeDefaults (smartPaths : String × String) (o : ConfigOptions) : Config where
  headless := o.headless.getD true
  debug := o.debug.getD false
  downloadDir := o.downloadDir.getD smartPaths.1
  manifestPath := o.manifestPath.getD smartPaths.2
  timeout := o.timeout.getD 30000
  retries := o.retries.getD 3
  preferredSize := o.preferredSize.getD "original"
  dryRun := o.dryRun.getD false
  concurrency := o.concurrency.getD 3
  enableConcurrency := o.enableConcurrency.getD true
  limit := o.limit

/-- Valid preferred-size names checked by `validateConfig`. -/
def validSizes : List String := ["original", "large", "medium", "small"]

/-- ASCII lowercase of one character (JS `toLowerCase` restricted to the
ASCII names this config ever compares). -/
def charToLower (c : Char) : Char :=
  if 'A' ≤ c ∧ c ≤ 'Z' then Char.ofNat (c.toNat + 32) else c

/-- JS `String.prototype.toLowerCase` (ASCII fragment). -/
def jsToLower (s : String) : String := String.mk (s.data.map charToLower)

/-- Model of `Config.validateConfig` (`src/unnamed/part_006` lines 183-236). Each
numeric check is guarded by JS truthiness of the value itself (`config.retries
&& ...`), so the value `0` bypasses its check. Boolean `typeof` checks are
vacuous here. -/
def validateConfig (c : Config) : Except String Unit :=
  if intTruthy c.timeout && decide (c.timeout ≤ 0) then
    .error "Timeout must be a positive number"
  else if intTruthy c.retries && decide (c.retries < 0) then
    .error "Retries must be a non-negative number"
  else if (match c.limit with
           | some l => intTruthy l && decide (l ≤ 0)
           | none => false) then
    .error "Limit must be a positive number"
  else if strTruthy c.preferredSize &&
      !(validSizes.contains (jsToLower c.preferredSize)) then
    .error "PreferredSize must be one of: original, large, medium, small"
  else if intTruthy c.concurrency &&
      (decide (c.concurrency ≤ 0) || decide (c.concurrency > 10)) then
    .error "Concurrency must be a positive number between 1 and 10"
  else
    .ok ()

/-- Model of `new Config(options)`: merge with defaults, then validate
(`validateAndSetDefaults`). -/
def mkConfig (smartPaths : String × String) (o : ConfigOptions) :
    Except String Config :=
  let c := mergeDefaults smartPaths o
  match validateConfig c with
  | .error e => .error e
  | .ok _ => .ok c

end Unsplash

namespace Unsplash

/-- C10 counterexample: `retries = 0` and `concurrency = 0` are *not*
rejected — each numeric check in `validateConfig` is guarded by the value's
own JS truthiness, and `0` is falsy, so both slip through and construction
succeeds with `retries = 0` and `concurrency = 0` (outside 1-10). -/
theorem C10_counterexample :
    (mkConfig ("downloads", "manifest.json")
        { retries := some 0, concurrency := some 0 }).map Config.retries =
      .ok 0 ∧
    (mkConfig ("downloads", "manifest.json")
        { retries := some 0, concurrency := some 0 }).map Config.concurrency =
      .ok 0 := by
  decide

/-- C10 (amended): `validateConfig` rejects negative retries and nonzero
concurrency outside 1-10, but the value `0` bypasses each check (JS
truthiness guard), so every successfully constructed configuration satisfies
`retries ≥ 0` and `concurrency = 0 ∨ 1 ≤ concurrency ≤ 10`; in particular
`retries = 0` and `concurrency = 0` are accepted. -/
theorem C10_amended (smartPaths : String × String) (o : ConfigOptions)
    (c : Config) (h : mkConfig smartPaths o = .ok c) :
    0 ≤ c.retries ∧
      (c.concurrency = 0 ∨ (1 ≤ c.concurrency ∧ c.concurrency ≤ 10)) := by
  simp only [mkConfig] at h
  cases hv : validateConfig (mergeDefaults smartPaths o) with
  | error e => rw [hv] at h; exact Except.noConfusion h
  | ok u =>
    rw [hv] at h
    have hc : mergeDefaults smartPaths o = c := by injection h
    unfold validateConfig at hv
    split at hv
    · exact Except.noConfusion hv
    · split at hv
      · exact Except.noConfusion hv
      · split at hv
        · exact Except.noConfusion hv
        · split at hv
          · exact Except.noConfusion hv
          · split at hv
            · exact Except.noConfusion hv
            · rename_i hretries hlimit hsize hconc
              rw [← hc]
              simp only [intTruthy, Bool.and_eq_true, bne_iff_ne, ne_eq,
                decide_eq_true_eq, Bool.or_eq_true, not_and, not_or] at hretries hconc
              constructor
              · by_cases h0 : (mergeDefaults smartPaths o).retries = 0
                · omega
                · have := hretries h0
                  omega
              · by_cases h0 : (mergeDefaults smartPaths o).concurrency = 0
                · exact Or.inl h0
                · have := hconc h0
                  right
                  omega

/-- Witness for `C10_amended` on the default options. -/
theorem C10_amended_witness :
    0 ≤ (mergeDefaults ("d", "m") {}).retries ∧
      ((mergeDefaults ("d", "m") {}).concurrency = 0 ∨
        (1 ≤ (mergeDefaults ("d", "m") {}).concurrency ∧
          (mergeDefaults ("d", "m") {}).concurrency ≤ 10)) :=
  C10_amended ("d", "m") {} (mergeDefaults ("d", "m") {}) (by decide)

end Unsplash

namespace Unsplash

/-! ## Observable events and the collaborator environment

The coordinator's effects are reified as an event trace:
`existsCheck` (filesystem probe), `navigate`/`clickDownload` (browser
automation), `fsWrite` (a file written to disk), `apiFetch` (an HTTP request
to the Unsplash REST API), `sleep` (a timer). -/

inductive Event where
  | existsCheck (photoId : String)
  | navigate (photoId : String)
  | clickDownload (photoId : String)
  | fsWrite (filepath : String)
  | apiFetch (photoId : String)
  | sleep (ms : Int)
deriving Repr, DecidableEq

/-- Metadata returned by `UnsplashAPIService.fetchImageMetadata`
(`src/src/api/UnsplashAPIService.ts`), restricted to the fields
`enhanceWithApiMetadata` consumes. -/
structure ApiMetadata where
  author : String
  authorUrl : String
  imageUrl : String
  width : Nat
  height : Nat
  likes : Nat
  description : Option String := none
  location : Option String := none
  camera : Option String := none
deriving Repr, DecidableEq

/-- Outcome of one browser download attempt (`downloadImageDirect`): either
an exception (selector not found / missing ixid / timeout), or a Playwright
`Download` handle whose save will have the given suggested extension and
on-disk byte size. -/
inductive BrowserOutcome where
  | fails (msg : String)
  | transfers (suggestedExt : String) (statSize : Nat)
deriving Repr, DecidableEq

/-- Deterministic environment standing for the filesystem, the browser and
the API: `imageExists id` is the probe result (path, size) of
`FileSystemService.imageExists`; `browser id attempt` the outcome of the
attempt-numbered browser download; `api id` the REST metadata fetch. -/
structure Env where
  imageExists : String → Option (String × Nat)
  browser : String → Nat → BrowserOutcome
  api : String → Except String ApiMetadata

/-- Model of `DownloadResult` (`src/unnamed/part_008` types): one outcome per entry.
Absent JS fields are `none`; `skipped`/`dryRun` absent means `false`. -/
structure DownloadResult where
  success : Bool
  photoId : String
  skipped : Bool := false
  filepath : Option String := none
  filename : Option String := none
  size : Option Nat := none
  author : Option String := none
  authorUrl : Option String := none
  width : Option Nat := none
  height : Option Nat := none
  description : Option String := none
  imageUrl : Option String := none
  likes : Option Nat := none
  location : Option String := none
  camera : Option String := none
  error : Option String := none
  dryRun : Bool := false
deriving Repr, DecidableEq

/-- Model of `path.join(dir, name)`. -/
def pathJoin (dir name : String) : String := dir ++ "/" ++ name

/-- Model of `path.extname(suggestedFilename) || ".jpg"` in `saveDownload`. -/
def extnameOrJpg (ext : String) : String := if ext = "" then ".jpg" else ext

/-- Saved-file info returned by `FileSystemService.saveDownload`. -/
structure SavedFileInfo where
  filepath : String
  filename : String
  size : Nat
deriving Repr, DecidableEq

/-- Model of `FileSystemService.saveDownload` (`src/src/fs/FileSystemService.ts` lines
143-169): save the transfer under `{photoId}{ext}`, then stat it and throw
`"Downloaded file is empty"` on a zero-byte file. The `saveAs` write happens
before the stat, hence the `fsWrite` event in both outcomes. -/
def saveDownload (cfg : Config) (suggestedExt : String) (statSize : Nat)
    (photoId : String) : Except String SavedFileInfo × List Event :=
  let filename := photoId ++ extnameOrJpg suggestedExt
  let filepath := pathJoin cfg.downloadDir filename
  if statSize = 0 then
    (.error "Downloaded file is empty", [Event.fsWrite filepath])
  else
    (.ok ⟨filepath, filename, statSize⟩, [Event.fsWrite filepath])

/-- Model of `(imageData.image_author as string) || "Unknown author"`. -/
def authorOrUnknown : Option String → String
  | none => "Unknown author"
  | some a => if a = "" then "Unknown author" else a

/-- Model of `DownloadService.enhanceWithApiMetadata` (`src/unnamed/part_008` lines
763-801): failed results pass through untouched; otherwise the API is
queried (a network request — the `apiFetch` event), errors are swallowed,
and on success author/image fields are overwritten while optional fields are
only overwritten when truthy. The `size` field is never touched. -/
def enhanceWithApiMetadata (env : Env) (r : DownloadResult) :
    DownloadResult × List Event :=
  if !r.success then (r, [])
  else
    match env.api r.photoId with
    | .error _ => (r, [Event.apiFetch r.photoId])
    | .ok m =>
      ({ r with
          author := some m.author
          authorUrl := some m.authorUrl
          imageUrl := some m.imageUrl
          width := some m.width
          height := some m.height
          likes := some m.likes
          description := match m.description with
            | some dsc => some dsc
            | none => r.description
          location := match m.location with
            | some l => some l
            | none => r.location
          camera := match m.camera with
            | some cam => some cam
            | none => r.camera },
        [Event.apiFetch r.photoId])

/-- The `try` body of one `downloadImage` attempt (non-dry-run):
`downloadImageDirect` — navigate to the photo page, extract the ixid,
resolve a size selection, click the matching download link — then
`fs.saveDownload`, then build the success result and enhance it.
`.error` is the thrown exception consumed by the `catch` branch. -/
def attemptBody (env : Env) (cfg : Config) (photoId : String) (d : ImageData)
    (attempt : Nat) : Except String DownloadResult × List Event :=
  match env.browser photoId attempt with
  | .fails msg => (.error msg, [Event.navigate photoId])
  | .transfers suggestedExt statSize =>
    if cfg.preferredSize = "" then
      (.error "Preferred size not configured", [Event.navigate photoId])
    else
      match validateAndSelectSize d (jsToLower cfg.preferredSize) with
      | .error e => (.error e, [Event.navigate photoId])
      | .ok _sel =>
        match saveDownload cfg suggestedExt statSize photoId with
        | (.error msg, evs2) =>
          (.error msg,
            Event.navigate photoId :: Event.clickDownload photoId :: evs2)
        | (.ok fi, evs2) =>
          let base : DownloadResult :=
            { success := true
              photoId := photoId
              filepath := some fi.filepath
              filename := some fi.filename
              size := some fi.size
              author := some (authorOrUnknown d.image_author)
              authorUrl := d.image_author_url
              width := d.width
              height := d.height
              description := d.description }
          let enh := enhanceWithApiMetadata env base
          (.ok enh.1,
            Event.navigate photoId :: Event.clickDownload photoId ::
              (evs2 ++ enh.2))

/-- Model of `takeDebugScreenshot`: writes a screenshot file only in debug mode. -/
def debugScreenshotEvents (cfg : Config) (photoId : String) (attempt : Nat) :
    List Event :=
  if cfg.debug then
    [Event.fsWrite (pathJoin cfg.downloadDir
      ("debug-" ++ photoId ++ "-attempt-" ++ toString attempt ++ ".png"))]
  else []

/-- Model of `DownloadService.downloadImage` (`src/unnamed/part_008` lines 1101-1209).
Dry-run short-circuits with a simulated 1 MB success (still enhanced through
the API). Otherwise one attempt runs; on an exception a debug screenshot may
be taken, and while `retries` is truthy and `attempt < retries` the call
backs off `2000 × attempt` ms and recurses with `attempt + 1`, else a
`Failed` result carries the last error message. -/
def downloadImage (env : Env) (cfg : Config) (photoId : String) (d : ImageData)
    (attempt : Nat) : DownloadResult × List Event :=
  if cfg.dryRun then
    let base : DownloadResult :=
      { success := true
        photoId := photoId
        filepath := some (pathJoin cfg.downloadDir (photoId ++ ".jpg"))
        filename := some (photoId ++ ".jpg")
        size := some (1024 * 1024)
        author := some (authorOrUnknown d.image_author)
        authorUrl := d.image_author_url
        width := d.width
        height := d.height
        description := d.description
        dryRun := true }
    enhanceWithApiMetadata env base
  else
    match attemptBody env cfg photoId d attempt with
    | (.ok r, evs) => (r, evs)
    | (.error msg, evs) =>
      let evsc := evs ++ debugScreenshotEvents cfg photoId attempt
      if h : intTruthy cfg.retries = true ∧ (attempt : Int) < cfg.retries then
        let rec2 := downloadImage env cfg photoId d (attempt + 1)
        (rec2.1, evsc ++ Event.sleep (2000 * (attempt : Int)) :: rec2.2)
      else
        ({ success := false, photoId := photoId, error := some msg }, evsc)
termination_by (cfg.retries + 1 - (attempt : Int)).toNat
decreasing_by
  obtain ⟨-, h2⟩ := h
  simp_wf
  omega

/-- Model of `DownloadService.downloadImageConcurrent` (`src/unnamed/part_008` lines
813-929): identical state machine, run on a pooled context; its `catch`
branch takes no debug screenshot. -/
def downloadImageConcurrent (env : Env) (cfg : Config) (photoId : String)
    (d : ImageData) (attempt : Nat) : DownloadResult × List Event :=
  if cfg.dryRun then
    let base : DownloadResult :=
      { success := true
        photoId := photoId
        filepath := some (pathJoin cfg.downloadDir (photoId ++ ".jpg"))
        filename := some (photoId ++ ".jpg")
        size := some (1024 * 1024)
        author := some (authorOrUnknown d.image_author)
        authorUrl := d.image_author_url
        width := d.width
        height := d.height
        description := d.description
        dryRun := true }
    enhanceWithApiMetadata env base
  else
    match attemptBody env cfg photoId d attempt with
    | (.ok r, evs) => (r, evs)
    | (.error msg, evs) =>
      if h : intTruthy cfg.retries = true ∧ (attempt : Int) < cfg.retries then
        let rec2 := downloadImageConcurrent env cfg photoId d (attempt + 1)
        (rec2.1, evs ++ Event.sleep (2000 * (attempt : Int)) :: rec2.2)
      else
        ({ success := false, photoId := photoId, error := some msg }, evs)
termination_by (cfg.retries + 1 - (attempt : Int)).toNat
decreasing_by
  obtain ⟨-, h2⟩ := h
  simp_wf
  omega

end Unsplash

namespace Unsplash

/-- The skip result pushed by both coordinator loops when
`fs.imageExists(photoId)` hits (`success: true, skipped: true`, carrying the
found file's path and size). -/
def mkSkipResult (photoId : String) (d : ImageData) (fp : String) (sz : Nat) :
    DownloadResult where
  success := true
  photoId := photoId
  skipped := true
  filepath := some fp
  size := some sz
  author := some (authorOrUnknown d.image_author)
  authorUrl := d.image_author_url
  width := d.width
  height := d.height
  description := d.description

/-- Model of `DownloadService.downloadImages` (`src/unnamed/part_008` lines
1281-1318), the sequential loop: existence check first; on a hit the skip
result is pushed and the loop `continue`s — the 1000 ms inter-entry delay
only runs after a processed (non-skipped) entry. -/
def downloadImages (env : Env) (cfg : Config) :
    List (String × ImageData) → List DownloadResult × List Event
  | [] => ([], [])
  | (photoId, d) :: rest =>
    match env.imageExists photoId with
    | some fpsz =>
      let tail := downloadImages env cfg rest
      (mkSkipResult photoId d fpsz.1 fpsz.2 :: tail.1,
        Event.existsCheck photoId :: tail.2)
    | none =>
      let head := downloadImage env cfg photoId d 1
      let tail := downloadImages env cfg rest
      (head.1 :: tail.1,
        Event.existsCheck photoId :: head.2 ++ Event.sleep 1000 :: tail.2)

/-- One entry's processing inside a concurrent worker
(`downloadImagesConcurrent`'s `createWorker` body, `src/unnamed/part_008`
lines 1364-1398): existence check, then `downloadImageConcurrent` on an
acquired context followed by a 500 ms courtesy delay. -/
def processEntryConc (env : Env) (cfg : Config) (entry : String × ImageData) :
    DownloadResult × List Event :=
  match env.imageExists entry.1 with
  | some fpsz =>
    (mkSkipResult entry.1 entry.2 fpsz.1 fpsz.2, [Event.existsCheck entry.1])
  | none =>
    let r := downloadImageConcurrent env cfg entry.1 entry.2 1
    (r.1, Event.existsCheck entry.1 :: r.2 ++ [Event.sleep 500])

/-- Model of `FileSystemService.calculateTotalStorage`
(`src/src/fs/FileSystemService.ts` lines 300-304):
`results.filter(r => r.success && r.size).reduce((sum, r) => sum + (r.size || 0), 0)`. -/
def calculateTotalStorage (results : List DownloadResult) : Nat :=
  (results.filter fun r => r.success && jsTruthyNat r.size).foldl
    (fun sum r => sum + r.size.getD 0) 0

/-- The summary record returned by `getDownloadSummary`. -/
structure DownloadSummary where
  successful : Nat
  failed : Nat
  skipped : Nat
  totalStorage : Nat
  failedResults : List DownloadResult
deriving Repr, DecidableEq

/-- Model of `DownloadService.getDownloadSummary` (`src/unnamed/part_008` lines
1471-1490). -/
def getDownloadSummary (results : List DownloadResult) : DownloadSummary :=
  let successful := results.filter fun r => r.success && !r.skipped
  let failed := results.filter fun r => !r.success
  let skipped := results.filter fun r => r.skipped
  { successful := successful.length
    failed := failed.length
    skipped := skipped.length
    totalStorage := calculateTotalStorage results
    failedResults := failed }

end Unsplash

namespace Unsplash
example :
    getDownloadSummary
      [{ success := true, photoId := "s1", size := some 1000 },
       { success := true, photoId := "s2", size := some 2000 },
       { success := true, photoId := "k1", skipped := true, size := some 500 },
       { success := false, photoId := "f1", error := some "x" }] =
    { successful := 2, failed := 1, skipped := 1, totalStorage := 3500,
      failedResults := [{ success := false, photoId := "f1", error := some "x" }] } := by
  decide
end Unsplash

namespace Unsplash

/-! ## Event predicates and unfolding lemmas -/

/-- Page navigation marker: exactly one per download attempt. -/
def isNavigate : Event → Bool
  | .navigate _ => true
  | _ => false

/-- Browser-automation events (navigation / click) for a given photo id. -/
def browserEventFor (pid : String) : Event → Bool
  | .navigate p => p == pid
  | .clickDownload p => p == pid
  | _ => false

/-- Any timer event. -/
def isSleepEvent : Event → Bool
  | .sleep _ => true
  | _ => false

/-- The sequential loop's fixed 1000 ms inter-entry delay. -/
def isSleep1000 : Event → Bool
  | .sleep ms => ms == 1000
  | _ => false

/-- Events a single download attempt may emit: browser and API activity for
its own photo id, and file writes; never sleeps or existence checks. -/
def attemptEventOk (pid : String) : Event → Prop
  | .navigate p => p = pid
  | .clickDownload p => p = pid
  | .apiFetch p => p = pid
  | .fsWrite _ => True
  | _ => False

/-- The trace of one attempt has one of three shapes: a bare navigation
(failure before the click), navigate-click-write (save failed), or
navigate-click-write-fetch (full success including API enhancement). -/
theorem attemptBody_trace_shape (env : Env) (cfg : Config) (pid : String)
    (d : ImageData) (n : Nat) :
    (attemptBody env cfg pid d n).2 = [Event.navigate pid] ∨
    (∃ fp, (attemptBody env cfg pid d n).2 =
      [Event.navigate pid, Event.clickDownload pid, Event.fsWrite fp]) ∨
    (∃ fp, (attemptBody env cfg pid d n).2 =
      [Event.navigate pid, Event.clickDownload pid, Event.fsWrite fp,
        Event.apiFetch pid]) := by
  unfold attemptBody
  rcases env.browser pid n with msg | ⟨ext, sz⟩
  · left; rfl
  · simp only
    split
    · left; rfl
    · rcases hvs : validateAndSelectSize d (jsToLower cfg.preferredSize) with e2 | sel
      · left; rfl
      · unfold saveDownload
        simp only
        by_cases hsz : sz = 0
        · rw [if_pos hsz]
          right; left; exact ⟨_, rfl⟩
        · rw [if_neg hsz]
          right; right
          rcases hapi : env.api pid with a | m <;>
            simp only [enhanceWithApiMetadata, hapi] <;> exact ⟨_, rfl⟩

theorem attemptBody_mem (env : Env) (cfg : Config) (pid : String)
    (d : ImageData) (n : Nat) :
    ∀ e ∈ (attemptBody env cfg pid d n).2, attemptEventOk pid e := by
  rcases attemptBody_trace_shape env cfg pid d n with h | ⟨fp, h⟩ | ⟨fp, h⟩ <;>
    rw [h] <;> intro e he <;> simp only [List.mem_cons, List.mem_singleton,
      List.not_mem_nil, or_false] at he
  · subst he; exact rfl
  · rcases he with rfl | rfl | rfl
    · exact rfl
    · exact rfl
    · trivial
  · rcases he with rfl | rfl | rfl | rfl
    · exact rfl
    · exact rfl
    · trivial
    · exact rfl

theorem attemptBody_navCount (env : Env) (cfg : Config) (pid : String)
    (d : ImageData) (n : Nat) :
    ((attemptBody env cfg pid d n).2.countP isNavigate) = 1 := by
  rcases attemptBody_trace_shape env cfg pid d n with h | ⟨fp, h⟩ | ⟨fp, h⟩ <;>
    rw [h] <;> simp [List.countP_cons, isNavigate]

theorem attemptBody_sleepCount (env : Env) (cfg : Config) (pid : String)
    (d : ImageData) (n : Nat) :
    ((attemptBody env cfg pid d n).2.countP isSleepEvent) = 0 := by
  rcases attemptBody_trace_shape env cfg pid d n with h | ⟨fp, h⟩ | ⟨fp, h⟩ <;>
    rw [h] <;> simp [List.countP_cons, isSleepEvent]

end Unsplash

namespace Unsplash

/-- The selector never throws: the `"Image width is undefined"` branch is
unreachable (the truthiness guard implies the width is present). -/
theorem validateAndSelectSize_ok (d : ImageData) (ps : String) :
    ∃ sel, validateAndSelectSize d ps = .ok sel := by
  unfold validateAndSelectSize
  rcases ImageSize.ofString? ps with _ | pref
  · exact ⟨_, rfl⟩
  · simp only
    split
    · exact ⟨_, rfl⟩
    · next hguard =>
      rcases hw : d.width with _ | w
      · exact absurd (by simp [jsTruthyNat, hw]) hguard
      · dsimp only
        rcases sizeMap pref with _ | c
        · exact ⟨_, rfl⟩
        · dsimp only
          split
          · split
            · exact ⟨_, rfl⟩
            · exact ⟨_, rfl⟩
          · split
            · exact ⟨_, rfl⟩
            · exact ⟨_, rfl⟩

theorem attemptBody_res_fails (env : Env) (cfg : Config) (pid : String)
    (d : ImageData) (n : Nat) (msg : String)
    (h : env.browser pid n = .fails msg) :
    attemptBody env cfg pid d n = (.error msg, [Event.navigate pid]) := by
  unfold attemptBody
  rw [h]

/-- A completed transfer whose on-disk size is zero makes the attempt throw
`"Downloaded file is empty"` (from `saveDownload`). -/
theorem attemptBody_res_empty (env : Env) (cfg : Config) (pid : String)
    (d : ImageData) (n : Nat) (ext : String)
    (h : env.browser pid n = .transfers ext 0)
    (hps : cfg.preferredSize ≠ "") :
    (attemptBody env cfg pid d n).1 = .error "Downloaded file is empty" := by
  unfold attemptBody
  rw [h]
  simp only
  rw [if_neg hps]
  obtain ⟨sel, hsel⟩ := validateAndSelectSize_ok d (jsToLower cfg.preferredSize)
  rw [hsel]
  rfl

theorem enhance_snd (env : Env) (r : DownloadResult) :
    (enhanceWithApiMetadata env r).2 =
      if r.success then [Event.apiFetch r.photoId] else [] := by
  cases hs : r.success
  · simp [enhanceWithApiMetadata, hs]
  · simp only [enhanceWithApiMetadata, hs, Bool.not_true, if_true]
    rcases env.api r.photoId with a | m <;> simp

theorem enhance_fields (env : Env) (r : DownloadResult) :
    (enhanceWithApiMetadata env r).1.success = r.success ∧
    (enhanceWithApiMetadata env r).1.photoId = r.photoId ∧
    (enhanceWithApiMetadata env r).1.size = r.size ∧
    (enhanceWithApiMetadata env r).1.skipped = r.skipped ∧
    (enhanceWithApiMetadata env r).1.dryRun = r.dryRun := by
  cases hs : r.success
  · simp [enhanceWithApiMetadata, hs]
  · simp only [enhanceWithApiMetadata, hs, Bool.not_true, if_true]
    rcases env.api r.photoId with a | m <;> simp [hs]

/-! Unfolding equations for `downloadImage`, one per control path. -/

theorem downloadImage_dry (env : Env) (cfg : Config) (pid : String)
    (d : ImageData) (attempt : Nat) (h : cfg.dryRun = true) :
    downloadImage env cfg pid d attempt =
      enhanceWithApiMetadata env
        { success := true
          photoId := pid
          filepath := some (pathJoin cfg.downloadDir (pid ++ ".jpg"))
          filename := some (pid ++ ".jpg")
          size := some (1024 * 1024)
          author := some (authorOrUnknown d.image_author)
          authorUrl := d.image_author_url
          width := d.width
          height := d.height
          description := d.description
          dryRun := true } := by
  conv_lhs => rw [downloadImage]
  rw [if_pos h]

theorem downloadImage_ok (env : Env) (cfg : Config) (pid : String)
    (d : ImageData) (attempt : Nat) (r : DownloadResult) (evs : List Event)
    (hdry : cfg.dryRun = false)
    (hab : attemptBody env cfg pid d attempt = (.ok r, evs)) :
    downloadImage env cfg pid d attempt = (r, evs) := by
  conv_lhs => rw [downloadImage]
  rw [if_neg (by simp [hdry]), hab]

theorem downloadImage_retry (env : Env) (cfg : Config) (pid : String)
    (d : ImageData) (attempt : Nat) (msg : String) (evs : List Event)
    (hdry : cfg.dryRun = false)
    (hab : attemptBody env cfg pid d attempt = (.error msg, evs))
    (hcond : intTruthy cfg.retries = true ∧ (attempt : Int) < cfg.retries) :
    downloadImage env cfg pid d attempt =
      ((downloadImage env cfg pid d (attempt + 1)).1,
        (evs ++ debugScreenshotEvents cfg pid attempt) ++
          Event.sleep (2000 * (attempt : Int)) ::
            (downloadImage env cfg pid d (attempt + 1)).2) := by
  conv_lhs => rw [downloadImage]
  rw [if_neg (by simp [hdry]), hab]
  dsimp only
  rw [dif_pos hcond]

theorem downloadImage_last (env : Env) (cfg : Config) (pid : String)
    (d : ImageData) (attempt : Nat) (msg : String) (evs : List Event)
    (hdry : cfg.dryRun = false)
    (hab : attemptBody env cfg pid d attempt = (.error msg, evs))
    (hstop : ¬(intTruthy cfg.retries = true ∧ (attempt : Int) < cfg.retries)) :
    downloadImage env cfg pid d attempt =
      ({ success := false, photoId := pid, error := some msg },
        evs ++ debugScreenshotEvents cfg pid attempt) := by
  conv_lhs => rw [downloadImage]
  rw [if_neg (by simp [hdry]), hab]
  dsimp only
  rw [dif_neg hstop]

end Unsplash

namespace Unsplash

theorem debugShots_navCount (cfg : Config) (pid : String) (a : Nat) :
    (debugScreenshotEvents cfg pid a).countP isNavigate = 0 := by
  unfold debugScreenshotEvents
  split <;> simp [isNavigate]

theorem debugShots_sleepCount (cfg : Config) (pid : String) (a : Nat) :
    (debugScreenshotEvents cfg pid a).countP isSleepEvent = 0 := by
  unfold debugScreenshotEvents
  split <;> simp [isSleepEvent]

/-- Master lemma for an entry whose every attempt throws: starting from any
attempt number `1 ≤ attempt ≤ retries`, the loop fails with the *last*
attempt's message, makes one navigation per remaining attempt, and backs off
once per retry actually taken. -/
theorem downloadImage_allFail (env : Env) (cfg : Config) (pid : String)
    (d : ImageData) (msgs : Nat → String)
    (hdry : cfg.dryRun = false)
    (hfail : ∀ n, (attemptBody env cfg pid d n).1 = .error (msgs n)) :
    ∀ attempt : Nat, 1 ≤ attempt → (attempt : Int) ≤ cfg.retries →
      (downloadImage env cfg pid d attempt).1 =
        { success := false, photoId := pid, error := some (msgs cfg.retries.toNat) } ∧
      (downloadImage env cfg pid d attempt).2.countP isNavigate =
        cfg.retries.toNat - attempt + 1 ∧
      (downloadImage env cfg pid d attempt).2.countP isSleepEvent =
        cfg.retries.toNat - attempt := by
  suffices H : ∀ (N attempt : Nat), cfg.retries.toNat + 1 - attempt = N → 1 ≤ attempt →
      (attempt : Int) ≤ cfg.retries →
      (downloadImage env cfg pid d attempt).1 =
        { success := false, photoId := pid, error := some (msgs cfg.retries.toNat) } ∧
      (downloadImage env cfg pid d attempt).2.countP isNavigate =
        cfg.retries.toNat - attempt + 1 ∧
      (downloadImage env cfg pid d attempt).2.countP isSleepEvent =
        cfg.retries.toNat - attempt by
    exact fun attempt h1 hle => H _ attempt rfl h1 hle
  intro N
  induction N with
  | zero =>
    intro attempt hN h1 hle
    exact absurd hle (by omega)
  | succ N ih =>
    intro attempt hN h1 hle
    have hab : attemptBody env cfg pid d attempt =
        (.error (msgs attempt), (attemptBody env cfg pid d attempt).2) :=
      Prod.ext (hfail attempt) rfl
    by_cases hlt : (attempt : Int) < cfg.retries
    · have hr0 : intTruthy cfg.retries = true := by
        simp only [intTruthy, bne_iff_ne, ne_eq, decide_eq_true_eq]
        omega
      obtain ⟨hres, hnav, hslp⟩ :=
        ih (attempt + 1) (by omega) (by omega) (by push_cast; omega)
      rw [downloadImage_retry env cfg pid d attempt (msgs attempt) _ hdry hab
        ⟨hr0, hlt⟩]
      refine ⟨hres, ?_, ?_⟩
      · simp only [List.countP_append, List.countP_cons, hnav,
          attemptBody_navCount, debugShots_navCount]
        simp [isNavigate]
        omega
      · simp only [List.countP_append, List.countP_cons, hslp,
          attemptBody_sleepCount, debugShots_sleepCount]
        simp [isSleepEvent]
        omega
    · have hint : (attempt : Int) = cfg.retries := le_antisymm hle (not_lt.mp hlt)
      have htn : cfg.retries.toNat = attempt := by omega
      rw [downloadImage_last env cfg pid d attempt (msgs attempt) _ hdry hab
        (fun hc => hlt hc.2)]
      refine ⟨by rw [htn], ?_, ?_⟩
      · simp only [List.countP_append, attemptBody_navCount, debugShots_navCount]
        omega
      · simp only [List.countP_append, attemptBody_sleepCount,
          debugShots_sleepCount]
        omega

end Unsplash

namespace Unsplash

/-- Witness environment: no local files, every browser attempt throws
`"boom"`, API offline. -/
def wEnvFail : Env where
  imageExists := fun _ => none
  browser := fun _ _ => .fails "boom"
  api := fun _ => .error "offline"

/-- Witness environment: no local files, every transfer completes but lands
as a zero-byte file on disk. -/
def wEnvEmpty : Env where
  imageExists := fun _ => none
  browser := fun _ _ => .transfers ".jpg" 0
  api := fun _ => .error "offline"

/-- Witness configuration: retries 2, not dry-run, debug off. -/
def wCfg2 : Config where
  headless := true
  debug := false
  downloadDir := "downloads"
  manifestPath := "m.json"
  timeout := 30000
  retries := 2
  preferredSize := "original"
  dryRun := false
  concurrency := 3
  enableConcurrency := true
  limit := none

/-- Witness configuration: dry-run variant of `wCfg2`. -/
def wCfgDry : Config where
  headless := true
  debug := false
  downloadDir := "downloads"
  manifestPath := "m.json"
  timeout := 30000
  retries := 2
  preferredSize := "original"
  dryRun := true
  concurrency := 3
  enableConcurrency := true
  limit := none

/-- C2: for an entry whose every attempt throws and any configured
`retries ≥ 1`, `downloadImage` performs exactly `retries` attempts (one page
navigation each) and returns a `Failed` result carrying the last attempt's
error message. -/
theorem C2_retryCeiling (env : Env) (cfg : Config) (pid : String)
    (d : ImageData) (msgs : Nat → String)
    (hthrow : ∀ n, env.browser pid n = .fails (msgs n))
    (hdry : cfg.dryRun = false) (hr : 1 ≤ cfg.retries) :
    (downloadImage env cfg pid d 1).1 =
      { success := false, photoId := pid,
        error := some (msgs cfg.retries.toNat) } ∧
    (downloadImage env cfg pid d 1).2.countP isNavigate = cfg.retries.toNat := by
  have hfail : ∀ n, (attemptBody env cfg pid d n).1 = .error (msgs n) := by
    intro n
    rw [attemptBody_res_fails env cfg pid d n (msgs n) (hthrow n)]
  obtain ⟨h1, h2, h3⟩ := downloadImage_allFail env cfg pid d msgs hdry hfail 1
    le_rfl (by exact_mod_cast hr)
  exact ⟨h1, by omega⟩

/-- Witness for `C2_retryCeiling`: two configured retries, both throwing,
yield exactly two navigations and the failure message of attempt 2. -/
theorem C2_retryCeiling_witness :
    (downloadImage wEnvFail wCfg2 "p" {} 1).1 =
      { success := false, photoId := "p", error := some "boom" } ∧
    (downloadImage wEnvFail wCfg2 "p" {} 1).2.countP isNavigate = 2 := by
  have h := C2_retryCeiling wEnvFail wCfg2 "p" {} (fun _ => "boom")
    (fun _ => rfl) rfl (by decide)
  simpa [wCfg2] using h

/-- C5: a zero-byte saved file makes `saveDownload` throw
`"Downloaded file is empty"`; `downloadImage` treats every such attempt as a
failure, retrying with backoff while attempts remain (`retries - 1` sleeps,
`retries` navigations) and finally returning a `Failed` result — never a
`Success`. -/
theorem C5_emptyFile (env : Env) (cfg : Config) (pid : String) (d : ImageData)
    (ext : Nat → String)
    (hdry : cfg.dryRun = false) (hps : cfg.preferredSize ≠ "")
    (htr : ∀ n, env.browser pid n = .transfers (ext n) 0)
    (hr : 1 ≤ cfg.retries) :
    (saveDownload cfg (ext 1) 0 pid).1 = .error "Downloaded file is empty" ∧
    (downloadImage env cfg pid d 1).1 =
      { success := false, photoId := pid,
        error := some "Downloaded file is empty" } ∧
    (downloadImage env cfg pid d 1).2.countP isNavigate = cfg.retries.toNat ∧
    (downloadImage env cfg pid d 1).2.countP isSleepEvent =
      cfg.retries.toNat - 1 := by
  have hfail : ∀ n,
      (attemptBody env cfg pid d n).1 = .error "Downloaded file is empty" :=
    fun n => attemptBody_res_empty env cfg pid d n (ext n) (htr n) hps
  obtain ⟨h1, h2, h3⟩ := downloadImage_allFail env cfg pid d
    (fun _ => "Downloaded file is empty") hdry hfail 1 le_rfl
    (by exact_mod_cast hr)
  exact ⟨by simp [saveDownload], h1, by omega, by omega⟩

/-- Witness for `C5_emptyFile`: retries 2, every transfer zero-byte: two
navigations, one backoff, failure `"Downloaded file is empty"`. -/
theorem C5_emptyFile_witness :
    (saveDownload wCfg2 ".jpg" 0 "p").1 = .error "Downloaded file is empty" ∧
    (downloadImage wEnvEmpty wCfg2 "p" {} 1).1 =
      { success := false, photoId := "p",
        error := some "Downloaded file is empty" } ∧
    (downloadImage wEnvEmpty wCfg2 "p" {} 1).2.countP isNavigate = 2 ∧
    (downloadImage wEnvEmpty wCfg2 "p" {} 1).2.countP isSleepEvent = 1 := by
  have h := C5_emptyFile wEnvEmpty wCfg2 "p" {} (fun _ => ".jpg") rfl
    (by decide) (fun _ => rfl) (by decide)
  simpa [wCfg2] using h

/-- C6 (amended): in dry-run mode the result is a normal `Success` with the
fixed simulated size `1024 * 1024` and the `dryRun` marker, and the trace
shows no filesystem write and no browser activity — but it is exactly one
`apiFetch`: the metadata-enhancement HTTP request to the Unsplash API still
happens. -/
theorem C6_amended (env : Env) (cfg : Config) (pid : String) (d : ImageData)
    (attempt : Nat) (hdry : cfg.dryRun = true) :
    (downloadImage env cfg pid d attempt).1.success = true ∧
    (downloadImage env cfg pid d attempt).1.size = some (1024 * 1024) ∧
    (downloadImage env cfg pid d attempt).1.dryRun = true ∧
    (downloadImage env cfg pid d attempt).2 = [Event.apiFetch pid] := by
  rw [downloadImage_dry env cfg pid d attempt hdry]
  refine ⟨?_, ?_, ?_, ?_⟩
  · rw [(enhance_fields env _).1]
  · rw [(enhance_fields env _).2.2.1]
  · rw [(enhance_fields env _).2.2.2.2]
  · rw [enhance_snd env _]
    rfl

/-- Witness for `C6_amended` on a concrete dry-run configuration. -/
theorem C6_amended_witness :
    (downloadImage wEnvFail wCfgDry "w" {} 1).1.success = true ∧
    (downloadImage wEnvFail wCfgDry "w" {} 1).1.size = some (1024 * 1024) ∧
    (downloadImage wEnvFail wCfgDry "w" {} 1).1.dryRun = true ∧
    (downloadImage wEnvFail wCfgDry "w" {} 1).2 = [Event.apiFetch "w"] :=
  C6_amended wEnvFail wCfgDry "w" {} 1 rfl

/-- C6 counterexample: on a concrete dry-run entry the trace is
`[apiFetch "abc"]` — the API metadata fetch is a real network request
(`UnsplashAPIService.makeRequest` calls `fetch`), contradicting "no network
calls"; the result is still the simulated 1 MB success. -/
theorem C6_counterexample :
    (downloadImage wEnvFail wCfgDry "abc" {} 1).2 = [Event.apiFetch "abc"] ∧
    (downloadImage wEnvFail wCfgDry "abc" {} 1).1.success = true ∧
    (downloadImage wEnvFail wCfgDry "abc" {} 1).1.size = some (1024 * 1024) := by
  rw [downloadImage_dry wEnvFail wCfgDry "abc" {} 1 rfl]
  exact ⟨rfl, rfl, rfl⟩

end Unsplash

namespace Unsplash

theorem storage_foldl (l : List DownloadResult) (a : Nat) :
    l.foldl (fun sum r => sum + r.size.getD 0) a =
      a + l.foldl (fun sum r => sum + r.size.getD 0) 0 := by
  induction l generalizing a with
  | nil => simp
  | cons x t ih =>
    simp only [List.foldl_cons]
    rw [ih (a + x.size.getD 0), ih (0 + x.size.getD 0)]
    omega

/-- The source filter `r.success && r.size` (truthiness) sums to the same
value as the plain "sum of size over successful results": absent or zero
sizes contribute nothing either way. -/
theorem calc_eq_sum (rs : List DownloadResult) :
    calculateTotalStorage rs =
      ((rs.filter fun r => r.success).map fun r => r.size.getD 0).sum := by
  induction rs with
  | nil => rfl
  | cons r t ih =>
    simp only [calculateTotalStorage, List.filter_cons] at ih ⊢
    by_cases hs : r.success = true
    · by_cases ht : jsTruthyNat r.size = true
      · simp only [hs, ht, Bool.and_self, if_true, List.foldl_cons,
          List.map_cons, List.sum_cons]
        rw [storage_foldl]
        omega
      · have hz : r.size.getD 0 = 0 := by
          rcases hsz : r.size with _ | n
          · rfl
          · simp only [jsTruthyNat, hsz, bne_iff_ne, ne_eq,
              Decidable.not_not] at ht
            simp [ht]
        simp [hs, ht, hz, ih]
    · simp only [hs, Bool.false_and, if_false]
      simp only [Bool.not_eq_true] at hs
      simp [hs, ih]

/-- C7: `getDownloadSummary` partitions results into successful
(`success && !skipped`), failed (`!success`) and skipped (`skipped`), its
`totalStorage` is the sum of `size` over all results with `success` true
(including skipped ones), and the claim's synthetic example evaluates to
`successful=2, skipped=1, failed=1, totalStorage=3500`. -/
theorem C7_summary (results : List DownloadResult) :
    (getDownloadSummary results).successful =
      (results.filter fun r => r.success && !r.skipped).length ∧
    (getDownloadSummary results).failed =
      (results.filter fun r => !r.success).length ∧
    (getDownloadSummary results).skipped =
      (results.filter fun r => r.skipped).length ∧
    (getDownloadSummary results).totalStorage =
      ((results.filter fun r => r.success).map fun r => r.size.getD 0).sum ∧
    getDownloadSummary
      [{ success := true, photoId := "s1", size := some 1000 },
       { success := true, photoId := "s2", size := some 2000 },
       { success := true, photoId := "k1", skipped := true, size := some 500 },
       { success := false, photoId := "f1", error := some "x" }] =
    { successful := 2, failed := 1, skipped := 1, totalStorage := 3500,
      failedResults :=
        [{ success := false, photoId := "f1", error := some "x" }] } :=
  ⟨rfl, rfl, rfl, calc_eq_sum results, by decide⟩

end Unsplash

namespace Unsplash

/-- Events `downloadImage` may emit: attempt events for its own photo id, or
a linear backoff sleep of `2000 × k` ms with `k ≥ 1`. -/
def dlEventOk (pid : String) (e : Event) : Prop :=
  attemptEventOk pid e ∨ ∃ k : Nat, 1 ≤ k ∧ e = .sleep (2000 * (k : Int))

theorem debugShots_mem (cfg : Config) (pid : String) (a : Nat) :
    ∀ e ∈ debugScreenshotEvents cfg pid a, attemptEventOk pid e := by
  unfold debugScreenshotEvents
  split
  · intro e he
    simp only [List.mem_singleton] at he
    subst he
    trivial
  · intro e he
    simp at he

theorem downloadImage_mem (env : Env) (cfg : Config) (pid : String)
    (d : ImageData) :
    ∀ attempt : Nat, 1 ≤ attempt →
      ∀ e ∈ (downloadImage env cfg pid d attempt).2, dlEventOk pid e := by
  suffices H : ∀ (N attempt : Nat),
      (cfg.retries + 1 - (attempt : Int)).toNat = N → 1 ≤ attempt →
      ∀ e ∈ (downloadImage env cfg pid d attempt).2, dlEventOk pid e by
    exact fun attempt h1 => H _ attempt rfl h1
  intro N
  induction N using Nat.strong_induction_on with
  | _ N ih =>
    intro attempt hN h1 e he
    by_cases hdry : cfg.dryRun = true
    · rw [downloadImage_dry env cfg pid d attempt hdry, enhance_snd env _] at he
      simp at he
      subst he
      exact Or.inl rfl
    · have hdry2 : cfg.dryRun = false := by
        revert hdry
        cases cfg.dryRun <;> simp
      rcases hab : attemptBody env cfg pid d attempt with ⟨abr, abevs⟩
      have habmem : ∀ e2 ∈ abevs, attemptEventOk pid e2 := by
        have h2 := attemptBody_mem env cfg pid d attempt
        rw [hab] at h2
        exact h2
      rcases abr with msg | r
      · by_cases hcond :
            intTruthy cfg.retries = true ∧ (attempt : Int) < cfg.retries
        · rw [downloadImage_retry env cfg pid d attempt msg abevs hdry2 hab
            hcond] at he
          simp only [List.mem_append, List.mem_cons] at he
          rcases he with (he | he) | he | he
          · exact Or.inl (habmem e he)
          · exact Or.inl (debugShots_mem cfg pid attempt e he)
          · exact Or.inr ⟨attempt, h1, he⟩
          · exact ih ((cfg.retries + 1 - ((attempt + 1 : Nat) : Int)).toNat)
              (by push_cast; omega) (attempt + 1) rfl (by omega) e he
        · rw [downloadImage_last env cfg pid d attempt msg abevs hdry2 hab
            hcond] at he
          simp only [List.mem_append] at he
          rcases he with he | he
          · exact Or.inl (habmem e he)
          · exact Or.inl (debugShots_mem cfg pid attempt e he)
      · rw [downloadImage_ok env cfg pid d attempt r abevs hdry2 hab] at he
        exact Or.inl (habmem e he)

/-- Lemma: `downloadImage` never sleeps exactly 1000 ms (backoffs are `2000 × k`). -/
theorem downloadImage_noSleep1000 (env : Env) (cfg : Config) (pid : String)
    (d : ImageData) (attempt : Nat) (h1 : 1 ≤ attempt) :
    (downloadImage env cfg pid d attempt).2.countP isSleep1000 = 0 := by
  rw [List.countP_eq_zero]
  intro e he
  rcases downloadImage_mem env cfg pid d attempt h1 e he with hok | ⟨k, hk, rfl⟩
  · cases e with
    | sleep ms => exact absurd hok id
    | existsCheck p => exact absurd hok id
    | navigate p => simp [isSleep1000]
    | clickDownload p => simp [isSleep1000]
    | fsWrite p => simp [isSleep1000]
    | apiFetch p => simp [isSleep1000]
  · simp only [isSleep1000, beq_iff_eq]
    omega

/-- Browser events emitted by `downloadImage` are all for its own photo id. -/
theorem downloadImage_browserFor (env : Env) (cfg : Config) (pid : String)
    (d : ImageData) (attempt : Nat) (pid2 : String) (h1 : 1 ≤ attempt)
    (hne : pid ≠ pid2) :
    (downloadImage env cfg pid d attempt).2.countP (browserEventFor pid2) = 0 := by
  rw [List.countP_eq_zero]
  intro e he
  rcases downloadImage_mem env cfg pid d attempt h1 e he with hok | ⟨k, hk, rfl⟩
  · cases e with
    | sleep ms => exact absurd hok id
    | existsCheck p => exact absurd hok id
    | navigate p =>
      have : p = pid := hok
      subst this
      simp [browserEventFor, hne]
    | clickDownload p =>
      have : p = pid := hok
      subst this
      simp [browserEventFor, hne]
    | fsWrite p => simp [browserEventFor]
    | apiFetch p => simp [browserEventFor]
  · simp [browserEventFor]

end Unsplash

namespace Unsplash

/-- Positional stability of the sequential loop: the result at index `i` of
an entry whose file already exists is the skip result. -/
theorem downloadImages_skipAt (env : Env) (cfg : Config) :
    ∀ (entries : List (String × ImageData)) (i : Nat) (pid : String)
      (d : ImageData) (fp : String) (sz : Nat),
      entries.get? i = some (pid, d) →
      env.imageExists pid = some (fp, sz) →
      (downloadImages env cfg entries).1.get? i =
        some (mkSkipResult pid d fp sz) := by
  intro entries
  induction entries with
  | nil => intro i pid d fp sz hget hex; simp at hget
  | cons hd tl ih =>
    intro i pid d fp sz hget hex
    rcases hd with ⟨pid2, d2⟩
    rcases i with _ | i
    · simp only [List.get?_cons_zero, Option.some.injEq, Prod.mk.injEq] at hget
      obtain ⟨rfl, rfl⟩ := hget
      unfold downloadImages
      rw [hex]
      rfl
    · simp only [List.get?_cons_succ] at hget
      unfold downloadImages
      rcases hchk : env.imageExists pid2 with _ | fpsz
      · exact ih i pid d fp sz hget hex
      · exact ih i pid d fp sz hget hex

/-- If a photo id has a local file, the whole sequential run emits no
browser event for that id (every such entry skips before any navigation). -/
theorem downloadImages_noBrowserFor (env : Env) (cfg : Config)
    (pid : String) (hex : (env.imageExists pid).isSome = true) :
    ∀ entries : List (String × ImageData),
      (downloadImages env cfg entries).2.countP (browserEventFor pid) = 0 := by
  intro entries
  induction entries with
  | nil => rfl
  | cons hd tl ih =>
    rcases hd with ⟨pid2, d2⟩
    unfold downloadImages
    rcases hchk : env.imageExists pid2 with _ | fpsz
    · have hne : pid2 ≠ pid := by
        intro h
        subst h
        rw [hchk] at hex
        simp at hex
      dsimp only
      simp only [List.countP_cons, List.countP_append,
        downloadImage_browserFor env cfg pid2 d2 1 pid le_rfl hne, ih]
      simp [browserEventFor]
    · dsimp only
      simp only [List.countP_cons, ih]
      simp [browserEventFor]

/-- C3: for every entry whose id has a matching local file, the sequential
loop's result slot carries the skip result with the found path and size, the
whole sequential trace contains no browser-automation event for that id, and
the concurrent worker's per-entry processing returns the same skip result
after a single existence check — no navigation, extraction or click. -/
theorem C3_skipPrecedence (env : Env) (cfg : Config)
    (entries : List (String × ImageData)) (i : Nat) (pid : String)
    (d : ImageData) (fp : String) (sz : Nat)
    (hget : entries.get? i = some (pid, d))
    (hex : env.imageExists pid = some (fp, sz)) :
    (downloadImages env cfg entries).1.get? i =
      some (mkSkipResult pid d fp sz) ∧
    (downloadImages env cfg entries).2.countP (browserEventFor pid) = 0 ∧
    processEntryConc env cfg (pid, d) =
      (mkSkipResult pid d fp sz, [Event.existsCheck pid]) := by
  refine ⟨downloadImages_skipAt env cfg entries i pid d fp sz hget hex,
    downloadImages_noBrowserFor env cfg pid (by rw [hex]; rfl) entries, ?_⟩
  unfold processEntryConc
  rw [hex]

/-- Witness environment: photo "a" already exists on disk; everything else
fails in the browser. -/
def wEnvSkipA : Env where
  imageExists := fun pid =>
    if pid = "a" then some ("downloads/a.jpg", 10) else none
  browser := fun _ _ => .fails "boom"
  api := fun _ => .error "offline"

/-- Witness for `C3_skipPrecedence`: entry "a" of a two-entry list has a
local file; slot 0 is the skip result, the trace has no browser event for
"a", and the concurrent worker skips it too. -/
theorem C3_skipPrecedence_witness :
    (downloadImages wEnvSkipA wCfg2 [("a", {}), ("b", {})]).1.get? 0 =
      some (mkSkipResult "a" {} "downloads/a.jpg" 10) ∧
    (downloadImages wEnvSkipA wCfg2 [("a", {}), ("b", {})]).2.countP
      (browserEventFor "a") = 0 ∧
    processEntryConc wEnvSkipA wCfg2 ("a", {}) =
      (mkSkipResult "a" {} "downloads/a.jpg" 10, [Event.existsCheck "a"]) :=
  C3_skipPrecedence wEnvSkipA wCfg2 [("a", {}), ("b", {})] 0 "a" {}
    "downloads/a.jpg" 10 rfl (by decide)

end Unsplash

namespace Unsplash

/-- Witness configuration: single attempt (retries 1). -/
def wCfg1 : Config := { wCfg2 with retries := 1 }

/-- C8 counterexample: with entry "a" skipped (file exists) and entry "b"
failing once, the sequential trace is
`[existsCheck a, existsCheck b, navigate b, sleep 1000]`: entry "b" starts
with **no** delay after the skipped entry "a" (the first three events hold no
1000 ms sleep) — the `continue` in the skip branch jumps over the delay, so
the delay is not inserted "regardless of outcome". -/
theorem C8_counterexample :
    (downloadImages wEnvSkipA wCfg1 [("a", ({} : ImageData)), ("b", {})]).2 =
      [Event.existsCheck "a", Event.existsCheck "b", Event.navigate "b",
        Event.sleep 1000] ∧
    ((downloadImages wEnvSkipA wCfg1
        [("a", ({} : ImageData)), ("b", {})]).2.take 3).countP isSleep1000
      = 0 := by
  have hb : downloadImage wEnvSkipA wCfg1 "b" ({} : ImageData) 1 =
      ({ success := false, photoId := "b", error := some "boom" },
        [Event.navigate "b"]) := by
    rw [downloadImage_last wEnvSkipA wCfg1 "b" {} 1 "boom" [Event.navigate "b"]
      rfl (attemptBody_res_fails wEnvSkipA wCfg1 "b" {} 1 "boom" rfl)
      (fun hc => absurd hc.2 (by decide))]
    decide
  have htr : (downloadImages wEnvSkipA wCfg1
      [("a", ({} : ImageData)), ("b", {})]).2 =
      [Event.existsCheck "a", Event.existsCheck "b", Event.navigate "b",
        Event.sleep 1000] := by
    have ha : wEnvSkipA.imageExists "a" = some ("downloads/a.jpg", 10) := by
      decide
    have hbn : wEnvSkipA.imageExists "b" = none := by decide
    simp [downloadImages, ha, hbn, hb]
  exact ⟨htr, by rw [htr]; decide⟩

/-- C8 (amended): the sequential loop inserts exactly one 1000 ms delay per
**non-skipped** entry — after the entry's attempt loop finishes, whether it
succeeded or failed — and none for entries skipped by the existence check
(no other 1000 ms sleeps exist: backoffs are multiples of 2000 ms). -/
theorem C8_amended (env : Env) (cfg : Config)
    (entries : List (String × ImageData)) :
    (downloadImages env cfg entries).2.countP isSleep1000 =
      entries.countP fun e => (env.imageExists e.1).isNone := by
  induction entries with
  | nil => rfl
  | cons hd tl ih =>
    rcases hd with ⟨pid, d⟩
    unfold downloadImages
    rcases hchk : env.imageExists pid with _ | fpsz
    · dsimp only
      simp only [List.countP_cons, List.countP_append,
        downloadImage_noSleep1000 env cfg pid d 1 le_rfl, ih]
      simp [isSleep1000, hchk]
    · dsimp only
      simp only [List.countP_cons, ih]
      simp [isSleep1000, hchk]

end Unsplash

namespace Unsplash

/-! ## The concurrent worker pool (`downloadImagesConcurrent`)

`downloadImagesConcurrent` (`src/unnamed/part_008` lines 1328-1411) runs
`concurrency` copies of `createWorker` over a shared cursor
(`const entryIndex = currentIndex++`) and a pre-allocated results array
(`results[entryIndex] = result`). JavaScript's single-threaded execution
makes the claim (`currentIndex++`) and the slot write atomic; the
nondeterminism lives in which worker runs its next atomic segment. This is
modelled as a small-step transition system: a worker claims the cursor,
completes its claimed entry (writing the slot), or exits when the cursor is
exhausted. -/

/-- A worker is between entries (`idle`), processing a claimed entry index
(`working i`), or finished (`done`). -/
inductive WStatus where
  | idle
  | working (idx : Nat)
  | done
deriving Repr, DecidableEq

/-- Shared state of the pool: the cursor, the results array (a sparse JS
array written by index), and each worker's status. -/
structure PoolState where
  cursor : Nat
  slots : Nat → Option DownloadResult
  workers : Nat → WStatus

/-- Model of `imageEntries[entryIndex]` (total, with a dummy out of range). -/
def entryAt (entries : List (String × ImageData)) (i : Nat) :
    String × ImageData :=
  entries.getD i ("", {})

/-- The deterministic per-entry result a worker computes for entry `i`
(existence check, then `downloadImageConcurrent`). -/
def workerResult (env : Env) (cfg : Config)
    (entries : List (String × ImageData)) (i : Nat) : DownloadResult :=
  (processEntryConc env cfg (entryAt entries i)).1

/-- One atomic step of the worker pool. -/
inductive PoolStep (env : Env) (cfg : Config)
    (entries : List (String × ImageData)) (numWorkers : Nat) :
    PoolState → PoolState → Prop where
  | claim (s : PoolState) (w : Nat) (hw : w < numWorkers)
      (hidle : s.workers w = .idle) (hcur : s.cursor < entries.length) :
      PoolStep env cfg entries numWorkers s
        { cursor := s.cursor + 1
          slots := s.slots
          workers := fun j => if j = w then .working s.cursor else s.workers j }
  | exit (s : PoolState) (w : Nat) (hw : w < numWorkers)
      (hidle : s.workers w = .idle) (hcur : entries.length ≤ s.cursor) :
      PoolStep env cfg entries numWorkers s
        { cursor := s.cursor
          slots := s.slots
          workers := fun j => if j = w then .done else s.workers j }
  | complete (s : PoolState) (w idx : Nat) (hw : w < numWorkers)
      (hwork : s.workers w = .working idx) :
      PoolStep env cfg entries numWorkers s
        { cursor := s.cursor
          slots := fun j =>
            if j = idx then some (workerResult env cfg entries idx)
            else s.slots j
          workers := fun j => if j = w then .idle else s.workers j }

/-- Initial pool state: cursor 0, empty results array, all workers idle. -/
def poolInit : PoolState where
  cursor := 0
  slots := fun _ => none
  workers := fun _ => .idle

/-- Inductive invariant of the pool. -/
structure PoolInv (env : Env) (cfg : Config)
    (entries : List (String × ImageData)) (numWorkers : Nat)
    (s : PoolState) : Prop where
  cursor_le : s.cursor ≤ entries.length
  slots_correct : ∀ i r, s.slots i = some r →
    r = workerResult env cfg entries i
  unclaimed_empty : ∀ i, s.cursor ≤ i → s.slots i = none
  unclaimed_nowork : ∀ i, s.cursor ≤ i → ∀ w, s.workers w ≠ .working i
  claimed_cover : ∀ i, i < s.cursor →
    s.slots i ≠ none ∨ ∃ w, w < numWorkers ∧ s.workers w = .working i
  work_unique : ∀ w1 w2 i, s.workers w1 = .working i →
    s.workers w2 = .working i → w1 = w2
  work_slot_none : ∀ w i, s.workers w = .working i → s.slots i = none
  done_cursor : ∀ w, w < numWorkers → s.workers w = .done →
    entries.length ≤ s.cursor

theorem poolInit_inv (env : Env) (cfg : Config)
    (entries : List (String × ImageData)) (numWorkers : Nat) :
    PoolInv env cfg entries numWorkers poolInit := by
  refine
    { cursor_le := Nat.zero_le _
      slots_correct := ?_
      unclaimed_empty := fun i hi => rfl
      unclaimed_nowork := ?_
      claimed_cover := ?_
      work_unique := ?_
      work_slot_none := ?_
      done_cursor := ?_ }
  · intro i r h
    exact absurd h (by simp [poolInit])
  · intro i hi w hc
    exact WStatus.noConfusion hc
  · intro i hi
    simp only [poolInit] at hi
    exact absurd hi (by omega)
  · intro w1 w2 i h1 h2
    exact WStatus.noConfusion h1
  · intro w i h
    exact WStatus.noConfusion h
  · intro w hw h
    exact WStatus.noConfusion h

end Unsplash

namespace Unsplash

theorem poolStep_inv (env : Env) (cfg : Config)
    (entries : List (String × ImageData)) (numWorkers : Nat)
    (s t : PoolState) (hinv : PoolInv env cfg entries numWorkers s)
    (hstep : PoolStep env cfg entries numWorkers s t) :
    PoolInv env cfg entries numWorkers t := by
  cases hstep with
  | claim w hw hidle hcur =>
    refine
      { cursor_le := by dsimp only; omega
        slots_correct := hinv.slots_correct
        unclaimed_empty := ?_
        unclaimed_nowork := ?_
        claimed_cover := ?_
        work_unique := ?_
        work_slot_none := ?_
        done_cursor := ?_ }
    · intro i hi
      dsimp only at hi ⊢
      exact hinv.unclaimed_empty i (by omega)
    · intro i hi v
      dsimp only at hi ⊢
      by_cases hv : v = w
      · rw [if_pos hv]
        intro hc
        injection hc with he
        omega
      · rw [if_neg hv]
        exact hinv.unclaimed_nowork i (by omega) v
    · intro i hi
      dsimp only at hi ⊢
      by_cases hic : i = s.cursor
      · subst hic
        exact Or.inr ⟨w, hw, by rw [if_pos rfl]⟩
      · rcases hinv.claimed_cover i (by omega) with hs | ⟨v, hv, hvw⟩
        · exact Or.inl hs
        · have hvne : v ≠ w := by
            intro h
            subst h
            rw [hidle] at hvw
            exact WStatus.noConfusion hvw
          exact Or.inr ⟨v, hv, by rw [if_neg hvne]; exact hvw⟩
    · intro w1 w2 i h1 h2
      dsimp only at h1 h2
      by_cases hw1 : w1 = w <;> by_cases hw2 : w2 = w
      · rw [hw1, hw2]
      · rw [if_pos hw1] at h1
        rw [if_neg hw2] at h2
        injection h1 with he
        subst he
        exact absurd h2 (hinv.unclaimed_nowork s.cursor le_rfl w2)
      · rw [if_neg hw1] at h1
        rw [if_pos hw2] at h2
        injection h2 with he
        subst he
        exact absurd h1 (hinv.unclaimed_nowork s.cursor le_rfl w1)
      · rw [if_neg hw1] at h1
        rw [if_neg hw2] at h2
        exact hinv.work_unique w1 w2 i h1 h2
    · intro v i hvi
      dsimp only at hvi ⊢
      by_cases hv : v = w
      · rw [if_pos hv] at hvi
        injection hvi with he
        subst he
        exact hinv.unclaimed_empty s.cursor le_rfl
      · rw [if_neg hv] at hvi
        exact hinv.work_slot_none v i hvi
    · intro v hv hdone
      dsimp only at hdone ⊢
      by_cases hvw : v = w
      · rw [if_pos hvw] at hdone
        exact WStatus.noConfusion hdone
      · rw [if_neg hvw] at hdone
        have := hinv.done_cursor v hv hdone
        omega
  | exit w hw hidle hcur =>
    refine
      { cursor_le := hinv.cursor_le
        slots_correct := hinv.slots_correct
        unclaimed_empty := hinv.unclaimed_empty
        unclaimed_nowork := ?_
        claimed_cover := ?_
        work_unique := ?_
        work_slot_none := ?_
        done_cursor := ?_ }
    · intro i hi v
      dsimp only
      by_cases hv : v = w
      · rw [if_pos hv]
        exact fun hc => WStatus.noConfusion hc
      · rw [if_neg hv]
        exact hinv.unclaimed_nowork i hi v
    · intro i hi
      rcases hinv.claimed_cover i hi with hs | ⟨v, hv, hvw⟩
      · exact Or.inl hs
      · have hvne : v ≠ w := by
          intro h
          subst h
          rw [hidle] at hvw
          exact WStatus.noConfusion hvw
        exact Or.inr ⟨v, hv, by dsimp only; rw [if_neg hvne]; exact hvw⟩
    · intro w1 w2 i h1 h2
      dsimp only at h1 h2
      by_cases hw1 : w1 = w
      · rw [if_pos hw1] at h1
        exact WStatus.noConfusion h1
      · by_cases hw2 : w2 = w
        · rw [if_pos hw2] at h2
          exact WStatus.noConfusion h2
        · rw [if_neg hw1] at h1
          rw [if_neg hw2] at h2
          exact hinv.work_unique w1 w2 i h1 h2
    · intro v i hvi
      dsimp only at hvi
      by_cases hv : v = w
      · rw [if_pos hv] at hvi
        exact WStatus.noConfusion hvi
      · rw [if_neg hv] at hvi
        exact hinv.work_slot_none v i hvi
    · intro v hv hdone
      dsimp only at hdone
      by_cases hvw : v = w
      · exact hcur
      · rw [if_neg hvw] at hdone
        exact hinv.done_cursor v hv hdone
  | complete w idx hw hwork =>
    have hidxlt : idx < s.cursor := by
      by_contra hc
      exact hinv.unclaimed_nowork idx (by omega) w hwork
    refine
      { cursor_le := hinv.cursor_le
        slots_correct := ?_
        unclaimed_empty := ?_
        unclaimed_nowork := ?_
        claimed_cover := ?_
        work_unique := ?_
        work_slot_none := ?_
        done_cursor := ?_ }
    · intro i r h
      dsimp only at h
      by_cases hi : i = idx
      · subst hi
        rw [if_pos rfl] at h
        injection h with he
        exact he.symm
      · rw [if_neg hi] at h
        exact hinv.slots_correct i r h
    · intro i hi
      dsimp only at hi ⊢
      have hine : i ≠ idx := by omega
      rw [if_neg hine]
      exact hinv.unclaimed_empty i hi
    · intro i hi v
      dsimp only
      by_cases hv : v = w
      · rw [if_pos hv]
        exact fun hc => WStatus.noConfusion hc
      · rw [if_neg hv]
        exact hinv.unclaimed_nowork i hi v
    · intro i hi
      dsimp only at hi ⊢
      by_cases hiidx : i = idx
      · subst hiidx
        exact Or.inl (by rw [if_pos rfl]; simp)
      · rcases hinv.claimed_cover i hi with hs | ⟨v, hv, hvw⟩
        · exact Or.inl (by rw [if_neg hiidx]; exact hs)
        · have hvne : v ≠ w := by
            intro h
            subst h
            rw [hwork] at hvw
            injection hvw with he
            exact hiidx he.symm
          exact Or.inr ⟨v, hv, by rw [if_neg hvne]; exact hvw⟩
    · intro w1 w2 i h1 h2
      dsimp only at h1 h2
      by_cases hw1 : w1 = w
      · rw [if_pos hw1] at h1
        exact WStatus.noConfusion h1
      · by_cases hw2 : w2 = w
        · rw [if_pos hw2] at h2
          exact WStatus.noConfusion h2
        · rw [if_neg hw1] at h1
          rw [if_neg hw2] at h2
          exact hinv.work_unique w1 w2 i h1 h2
    · intro v i hvi
      dsimp only at hvi ⊢
      by_cases hv : v = w
      · rw [if_pos hv] at hvi
        exact WStatus.noConfusion hvi
      · rw [if_neg hv] at hvi
        have hine : i ≠ idx := by
          intro h
          subst h
          exact hv (hinv.work_unique v w _ hvi hwork)
        rw [if_neg hine]
        exact hinv.work_slot_none v i hvi
    · intro v hv hdone
      dsimp only at hdone
      by_cases hvw : v = w
      · rw [if_pos hvw] at hdone
        exact WStatus.noConfusion hdone
      · rw [if_neg hvw] at hdone
        exact hinv.done_cursor v hv hdone

end Unsplash

namespace Unsplash

/-- C4: in concurrent mode (any pool size 1..10) and under every
interleaving of worker steps from the initial state: a written result slot
`i` always holds the result of processing input entry `i` (never another
entry's result, never appended elsewhere), and when all workers are done
every entry index has been claimed exactly once and its slot filled with its
own entry's result. -/
theorem C4_indexStability (env : Env) (cfg : Config)
    (entries : List (String × ImageData)) (numWorkers : Nat)
    (hnw1 : 1 ≤ numWorkers) (hnw10 : numWorkers ≤ 10) (s : PoolState)
    (hreach : Relation.ReflTransGen (PoolStep env cfg entries numWorkers)
      poolInit s) :
    (∀ i r, s.slots i = some r → r = workerResult env cfg entries i) ∧
    ((∀ w, w < numWorkers → s.workers w = .done) →
      ∀ i, i < entries.length →
        s.slots i = some (workerResult env cfg entries i)) := by
  have hinv : PoolInv env cfg entries numWorkers s := by
    induction hreach with
    | refl => exact poolInit_inv env cfg entries numWorkers
    | tail hsteps hstep ih =>
      exact poolStep_inv env cfg entries numWorkers _ _ ih hstep
  refine ⟨hinv.slots_correct, ?_⟩
  intro hdone i hi
  have hcur : entries.length ≤ s.cursor :=
    hinv.done_cursor 0 hnw1 (hdone 0 hnw1)
  rcases hinv.claimed_cover i (by omega) with hs | ⟨w, hw, hwork⟩
  · rcases hslot : s.slots i with _ | r
    · exact absurd hslot hs
    · rw [hinv.slots_correct i r hslot]
  · have hd := hdone w hw
    rw [hwork] at hd
    exact WStatus.noConfusion hd

/-- Witness entry list with a single entry whose file exists. -/
def wEntries1 : List (String × ImageData) := [("a", {})]

/-- State after the single worker claims index 0. -/
def wPool1 : PoolState where
  cursor := poolInit.cursor + 1
  slots := poolInit.slots
  workers := fun j =>
    if j = 0 then .working poolInit.cursor else poolInit.workers j

/-- State after the worker completes entry 0 (slot 0 written). -/
def wPool2 : PoolState where
  cursor := wPool1.cursor
  slots := fun j =>
    if j = 0 then some (workerResult wEnvSkipA wCfg2 wEntries1 0)
    else wPool1.slots j
  workers := fun j => if j = 0 then .idle else wPool1.workers j

/-- Terminal state: cursor exhausted, the worker exits. -/
def wPool3 : PoolState where
  cursor := wPool2.cursor
  slots := wPool2.slots
  workers := fun j => if j = 0 then .done else wPool2.workers j

/-- Witness for `C4_indexStability`: a one-entry run with one worker reaches
a terminal state whose slot 0 holds entry 0's own result (here the skip
result, since "a" exists locally). -/
theorem C4_indexStability_witness :
    wPool3.slots 0 = some (workerResult wEnvSkipA wCfg2 wEntries1 0) ∧
    workerResult wEnvSkipA wCfg2 wEntries1 0 =
      mkSkipResult "a" {} "downloads/a.jpg" 10 := by
  have h1 : PoolStep wEnvSkipA wCfg2 wEntries1 1 poolInit wPool1 :=
    PoolStep.claim poolInit 0 (by decide) rfl (by decide)
  have h2 : PoolStep wEnvSkipA wCfg2 wEntries1 1 wPool1 wPool2 :=
    PoolStep.complete wPool1 0 0 (by decide) rfl
  have h3 : PoolStep wEnvSkipA wCfg2 wEntries1 1 wPool2 wPool3 :=
    PoolStep.exit wPool2 0 (by decide) rfl (by decide)
  have hreach := Relation.ReflTransGen.tail (Relation.ReflTransGen.tail
    (Relation.ReflTransGen.tail (Relation.ReflTransGen.refl) h1) h2) h3
  have hmain := C4_indexStability wEnvSkipA wCfg2 wEntries1 1 (by decide)
    (by decide) wPool3 hreach
  refine ⟨hmain.2 ?_ 0 (by decide), by decide⟩
  intro w hw
  have hw0 : w = 0 := by omega
  subst hw0
  rfl

end Unsplash
